import Mathlib

/-
Verification of the interview scoring and aggregation pipeline of the
AI-agent repository (interview_engine_new.py, interview_engine.py,
interview_ui.py, database_methods.py, database_update.py).

Modelling conventions:
* Numeric values flowing through the pipeline (scores, rates, weights) are
  modelled as exact rationals; Python float literals and products are only
  modelled bit-exactly where a claim is about rounding behaviour (the
  per-category question quotas, which use IEEE-754 binary64 products).
* Calls to the external text-generation service are modelled by passing the
  outcome of the call as an explicit argument of type `Except String R`:
  `Except.error e` is the call raising an exception with message `e`, and
  `Except.ok r` is a successful call whose JSON body parsed to `r`.
  Fields that may be absent from the parsed JSON object are `Option`s.
* Python dictionaries whose key set matters are insertion-ordered
  association lists; dictionaries with a fixed field set are structures.
-/

/-! ### Binary64 model for the quota computation of `generate_questions`

`interview_engine_new.py` lines 48-51 (and identically
`interview_engine.py` lines 53-56) compute

    technical_count       = int(num_questions * 0.4)
    scenario_count        = int(num_questions * 0.3)
    behavioral_count      = int(num_questions * 0.2)
    problem_solving_count = num_questions - technical_count
                            - scenario_count - behavioral_count

with IEEE-754 binary64 (`float`) multiplication.  A nonnegative binary64
value is represented as a pair `(m, k) : ℕ × ℕ` denoting `m / 2 ^ k`. -/

/-- Round-half-to-even of the exact quotient `a / b` (`b ≠ 0`): the rounding
used by IEEE-754 round-to-nearest. -/
def rheDiv (a b : ℕ) : ℕ :=
  let q := a / b
  let r := a % b
  if 2 * r < b then q
  else if b < 2 * r then q + 1
  else if q % 2 = 0 then q else q + 1

/-- Fuel-bounded binary length: `bitsAux fuel m` is the number of binary
digits of `m` provided `m < 2 ^ fuel`. -/
def bitsAux : ℕ → ℕ → ℕ
  | 0, _ => 0
  | fuel + 1, m => if m = 0 then 0 else bitsAux fuel (m / 2) + 1

/-- Binary length of a natural number below `2 ^ 64`. -/
def bits (m : ℕ) : ℕ := bitsAux 64 m

/-- Round the value `m / 2 ^ k` to at most 53 significant bits
(round-to-nearest, ties to even): the binary64 rounding of an exact
product, for operands in the normal range with `k` at least the number of
excess bits. -/
def roundSig53 (m k : ℕ) : ℕ × ℕ :=
  let b := bits m
  if b ≤ 53 then (m, k)
  else (rheDiv m (2 ^ (b - 53)), k - (b - 53))

/-- Binary64 value of the Python literal `0.4`: `0.4 ∈ [2 ^ (-2), 2 ^ (-1))`,
so its significand scale is `2 ^ 54` and the stored significand is
`0.4 * 2 ^ 54 = 2 * 2 ^ 54 / 5` rounded half-to-even. -/
def float_0_4 : ℕ × ℕ := (rheDiv (2 * 2 ^ 54) 5, 54)

/-- Binary64 value of the Python literal `0.3`
(`0.3 ∈ [2 ^ (-2), 2 ^ (-1))`, significand scale `2 ^ 54`). -/
def float_0_3 : ℕ × ℕ := (rheDiv (3 * 2 ^ 54) 10, 54)

/-- Binary64 value of the Python literal `0.2`
(`0.2 ∈ [2 ^ (-3), 2 ^ (-2))`, significand scale `2 ^ 55`). -/
def float_0_2 : ℕ × ℕ := (rheDiv (2 ^ 55) 5, 55)

/-- Binary64 product `n * f` of a small integer (exactly representable)
with a binary64 value: the exact product rounded to 53 significant bits. -/
def fmul_nat (n : ℕ) (f : ℕ × ℕ) : ℕ × ℕ := roundSig53 (n * f.1) f.2

/-- Python `int()` applied to a nonnegative binary64 value: truncation. -/
def py_int (f : ℕ × ℕ) : ℕ := f.1 / 2 ^ f.2

/-- `technical_count = int(num_questions * 0.4)`
(interview_engine_new.py line 48). -/
def technical_count (n : ℕ) : ℕ := py_int (fmul_nat n float_0_4)

/-- `scenario_count = int(num_questions * 0.3)`
(interview_engine_new.py line 49). -/
def scenario_count (n : ℕ) : ℕ := py_int (fmul_nat n float_0_3)

/-- `behavioral_count = int(num_questions * 0.2)`
(interview_engine_new.py line 50). -/
def behavioral_count (n : ℕ) : ℕ := py_int (fmul_nat n float_0_2)

/-- `problem_solving_count = num_questions - technical_count -
scenario_count - behavioral_count` (interview_engine_new.py line 51),
over ℤ so that nonnegativity is a statement and not a coercion artifact. -/
def problem_solving_count (n : ℕ) : ℤ :=
  (n : ℤ) - technical_count n - scenario_count n - behavioral_count n

/-! ### Question generation (`generate_questions`)

`InterviewEngine.generate_questions` in `interview_engine_new.py` parses
the external JSON into a dictionary mapping category names to question
lists, fills in any missing category with an empty list (lines 114-118),
and on any exception returns the four-category empty structure
(lines 126-134).  The legacy `InterviewEngine.generate_questions` in
`interview_engine.py` returns the parsed dictionary unchanged and
re-raises every exception (lines 151-160). -/

/-- One generated question as parsed from the external JSON. -/
structure GQuestion where
  question : String
  context : String
deriving DecidableEq

/-- Parsed question dictionary: insertion-ordered association list from
category name to question list, as a Python `dict`. -/
abbrev GenDict : Type := List (String × List GQuestion)

/-- Category key order of the question dictionary and of the
`scores_by_type` dictionary (interview_engine_new.py lines 115, 276-281). -/
def categories : List String :=
  ["technical", "scenario", "behavioral", "problem_solving"]

/-- Body of the loop `if category not in result: result[category] = []`
(interview_engine_new.py lines 117-118): appends a binding for the
category when it is missing. -/
def ensure_step (acc : GenDict) (category : String) : GenDict :=
  if (List.lookup category acc).isSome then acc else acc ++ [(category, [])]

/-- Loop `for category in categories: ...` of interview_engine_new.py
lines 116-118. -/
def ensure_categories (result : GenDict) : GenDict :=
  categories.foldl ensure_step result

/-- `InterviewEngine.generate_questions` of `interview_engine_new.py`,
as a function of the external call outcome: on success the parsed
dictionary with the four categories ensured, on any exception the
four-category empty dictionary (lines 126-134). -/
def generate_questions (ext : Except String GenDict) : GenDict :=
  match ext with
  | .ok result => ensure_categories result
  | .error _ =>
      [("technical", []), ("scenario", []), ("behavioral", []),
       ("problem_solving", [])]

/-- Legacy `InterviewEngine.generate_questions` of `interview_engine.py`:
returns the parsed dictionary unchanged; both `except` clauses re-raise
(lines 156-160), so a failed call propagates as a failure. -/
def generate_questions_old (ext : Except String GenDict) :
    Except String GenDict :=
  match ext with
  | .ok result => .ok result
  | .error e => .error e

/-! ### Answer evaluation (`evaluate_answer`)

`InterviewEngine.evaluate_answer` (interview_engine_new.py lines 210-249):
missing fields are defaulted (lines 215-222), the five numeric fields are
`float()`-converted, clamped to `[0, 10]` and rounded to one decimal
(lines 225-232, with `5.0` when the conversion raises), and any exception
around the external call yields the fixed fallback evaluation
(lines 240-249). -/

/-- Value of one numeric field of the parsed evaluation JSON, classified
by the behaviour of Python `float()` on it: the field is absent, present
but not convertible (a `ValueError`/`TypeError`), or convertible with the
given value. -/
inductive ExtNum where
  | absent : ExtNum
  | nonNumeric : ExtNum
  | num : ℚ → ExtNum
deriving DecidableEq

/-- Parsed evaluation JSON returned by the external grading service. -/
structure ScoreResponse where
  score : ExtNum
  technical_accuracy : ExtNum
  clarity_of_communication : ExtNum
  relevance : ExtNum
  demonstrated_expertise : ExtNum
  strengths : Option (List String)
  weaknesses : Option (List String)
  feedback : Option String
deriving DecidableEq

/-- Fully validated evaluation as returned by `evaluate_answer`. -/
structure Evaluation where
  score : ℚ
  technical_accuracy : ℚ
  clarity_of_communication : ℚ
  relevance : ℚ
  demonstrated_expertise : ℚ
  strengths : List String
  weaknesses : List String
  feedback : String
deriving DecidableEq

/-- Round-half-to-even to an integer: Python `round` on an exact value. -/
def rheRound (q : ℚ) : ℤ :=
  if q - ⌊q⌋ < 1 / 2 then ⌊q⌋
  else if 1 / 2 < q - ⌊q⌋ then ⌊q⌋ + 1
  else if ⌊q⌋ % 2 = 0 then ⌊q⌋ else ⌊q⌋ + 1

/-- Python `round(x, 1)`: round to one decimal place, ties to even. -/
def round1 (q : ℚ) : ℚ := (rheRound (q * 10) : ℚ) / 10

/-- `max(0, min(10, x))` (interview_engine_new.py line 229). -/
def clamp_score (x : ℚ) : ℚ := max 0 (min 10 x)

/-- Normalization of one numeric field (interview_engine_new.py
lines 215-232): an absent field is first defaulted to `5` and then runs
through convert-clamp-round like a present numeric value; a present
non-convertible field makes `float()` raise, caught to `5.0`. -/
def normalize_score (v : ExtNum) : ℚ :=
  match v with
  | .absent => round1 (clamp_score 5)
  | .nonNumeric => 5
  | .num q => round1 (clamp_score q)

/-- `InterviewEngine.evaluate_answer` of `interview_engine_new.py` as a
function of the external call outcome. -/
def evaluate_answer (ext : Except String ScoreResponse) : Evaluation :=
  match ext with
  | .error e =>
      { score := 5
        technical_accuracy := 5
        clarity_of_communication := 5
        relevance := 5
        demonstrated_expertise := 5
        strengths := ["Unable to properly evaluate response"]
        weaknesses := ["System could not analyze this response"]
        feedback := "Error during evaluation: " ++ e }
  | .ok r =>
      { score := normalize_score r.score
        technical_accuracy := normalize_score r.technical_accuracy
        clarity_of_communication := normalize_score r.clarity_of_communication
        relevance := normalize_score r.relevance
        demonstrated_expertise := normalize_score r.demonstrated_expertise
        strengths := r.strengths.getD []
        weaknesses := r.weaknesses.getD []
        feedback := r.feedback.getD "No detailed feedback provided." }

/-! ### Final report (`generate_final_report`)

`InterviewEngine.generate_final_report` (interview_engine_new.py
lines 251-493).  Its `interview_results` argument is the list built in
`complete_interview` (interview_ui.py lines 669-677) from the rows of
`get_interview_answers` (database_methods.py lines 263-293). -/

/-- ASCII lower-casing of one character: Python `str.lower()` on the
ASCII category names involved here. -/
def py_lower_char (c : Char) : Char :=
  if 65 <= c.toNat ∧ c.toNat <= 90 then Char.ofNat (c.toNat + 32) else c

/-- Python `str.lower()` (for ASCII strings), applied to the `type` key by
`generate_final_report` (`item.get('type', '').lower()`, line 285). -/
def py_lower (s : String) : String := ⟨s.data.map py_lower_char⟩

/-- The `evaluation` sub-dictionary of a stored answer; only its `score`
key is read by the modelled outputs (`evaluation.get('score', 0)`,
line 297), and the key may be absent. -/
structure EvalDict where
  score : Option ℚ
deriving DecidableEq

/-- A stored answer as it reaches `generate_final_report`
(`answer_data`): text, optional evaluation dictionary, and the `skipped`
flag stored by the skip path of the UI (False for ordinary answers). -/
structure AnswerData where
  text : String
  evaluation : Option EvalDict
  skipped : Bool
deriving DecidableEq

/-- One element of `interview_results`: the item's `question`, its `type`
key (field `qtype` here, `type` being reserved in Lean) and its `answer`
(`None` when the question was never submitted). -/
structure ResultItem where
  question : String
  qtype : String
  answer : Option AnswerData
deriving DecidableEq

/-- `answered_questions = sum(1 for q in interview_results if
q.get('answer') is not None)` (line 271). -/
def answered_questions (results : List ResultItem) : ℕ :=
  (results.filter fun it => it.answer.isSome).length

/-- `completion_rate = answered_questions / total_questions if
total_questions > 0 else 0` (line 272). -/
def completion_rate (results : List ResultItem) : ℚ :=
  if results.length > 0 then
    (answered_questions results : ℚ) / results.length
  else 0

/-- `evaluation = answer_data.get('evaluation', {})`;
`score = evaluation.get('score', 0)` (lines 296-297). -/
def item_score (a : AnswerData) : ℚ := ((a.evaluation.getD ⟨none⟩).score).getD 0

/-- The list `scores_by_type[cat]` after the loop of lines 283-311: the
scores of every item with a stored answer whose lower-cased `type` equals
`cat`, in order.  The `skipped` flag of the answer is never consulted. -/
def scores_by_type (results : List ResultItem) (cat : String) : List ℚ :=
  results.filterMap fun it =>
    match it.answer with
    | none => none
    | some a => if py_lower it.qtype = cat then some (item_score a) else none

/-- `avg_scores[cat] = sum(scores) / len(scores)` when the list is
nonempty, else `0` (lines 314-319). -/
def avg_score (results : List ResultItem) (cat : String) : ℚ :=
  let l := scores_by_type results cat
  if l = [] then 0 else l.sum / (l.length : ℚ)

/-- The weight dictionary of lines 322-327 (`weights.get(q_type, 0)`). -/
def weights (cat : String) : ℚ :=
  if cat = "technical" then 4 / 10
  else if cat = "scenario" then 3 / 10
  else if cat = "behavioral" then 3 / 20
  else if cat = "problem_solving" then 3 / 20
  else 0

/-- The accumulation loop of lines 329-336: `(overall_score,
total_weight)` after folding the four categories in dictionary order,
adding `avg * weight` and `weight` only for categories with at least one
stored score. -/
def overall_parts (results : List ResultItem) : ℚ × ℚ :=
  categories.foldl
    (fun acc cat =>
      if scores_by_type results cat ≠ [] then
        (acc.1 + avg_score results cat * weights cat, acc.2 + weights cat)
      else acc)
    (0, 0)

/-- `overall_score = overall_score / total_weight if total_weight > 0 else
0` (lines 338-341). -/
def overall_score (results : List ResultItem) : ℚ :=
  let p := overall_parts results
  if p.2 > 0 then p.1 / p.2 else 0

/-- The `scores` sub-dictionary of the report (lines 348-354), each value
rounded to one decimal place. -/
structure Scores where
  overall : ℚ
  technical : ℚ
  scenario : ℚ
  behavioral : ℚ
  problem_solving : ℚ
deriving DecidableEq

/-- `formatted_data["scores"]` (lines 348-354). -/
def report_scores (results : List ResultItem) : Scores :=
  { overall := round1 (overall_score results)
    technical := round1 (avg_score results "technical")
    scenario := round1 (avg_score results "scenario")
    behavioral := round1 (avg_score results "behavioral")
    problem_solving := round1 (avg_score results "problem_solving") }

/-- Parsed narrative JSON returned by the external service for the final
assessment; every field the service may omit is an `Option`.  Nested
objects are flattened to the text read from them. -/
structure NarrativeResponse where
  overall_assessment : Option String
  key_strengths : Option (List String)
  areas_for_improvement : Option (List String)
  key_observations : Option (List String)
  interview_completion : Option String
  recommendation : Option String
  reasoning : Option String
deriving DecidableEq

/-- The report dictionary returned by `generate_final_report`: the
narrative fields together with the locally computed `scores` and
`completion_rate` entries attached on lines 437-438 (success) or
lines 470-493 (fallback). -/
structure Report where
  overall_assessment : Option String
  key_strengths : Option (List String)
  areas_for_improvement : Option (List String)
  key_observations : Option (List String)
  interview_completion : Option String
  recommendation : Option String
  reasoning : Option String
  scores : Scores
  completion_rate : ℚ
deriving DecidableEq

/-- The zero score dictionary of the fallback path (lines 448-456). -/
def zero_scores : Scores :=
  { overall := 0, technical := 0, scenario := 0, behavioral := 0,
    problem_solving := 0 }

/-- `InterviewEngine.generate_final_report` of `interview_engine_new.py`
as a function of the external call outcome and of `interview_results`.
The second component counts the narrative-service calls the function
makes: the call of lines 422-431 is attempted on every run (a failing
call is still a call), so it is `1` on both paths.  On success the
narrative fields are returned as the service produced them with the
locally computed scores attached (lines 433-441).  On failure the
fallback (lines 443-493) first re-initializes `completion_rate = 0` and
the score dictionary to zeros (lines 446-456), so the returned
`completion_rate`, `scores`, and the completion percentage inside
`interview_completion` are always `0` there. -/
def generate_final_report (ext : Except String NarrativeResponse)
    (results : List ResultItem) : Report × ℕ :=
  match ext with
  | .ok nr =>
      ({ overall_assessment := nr.overall_assessment
         key_strengths := nr.key_strengths
         areas_for_improvement := nr.areas_for_improvement
         key_observations := nr.key_observations
         interview_completion := nr.interview_completion
         recommendation := nr.recommendation
         reasoning := nr.reasoning
         scores := report_scores results
         completion_rate := completion_rate results }, 1)
  | .error e =>
      ({ overall_assessment :=
           some "Could not generate a comprehensive assessment due to an error."
         key_strengths := some ["Unable to determine key strengths"]
         areas_for_improvement := some ["Unable to determine areas for improvement"]
         key_observations := some ["System encountered an error during final assessment"]
         interview_completion :=
           some "The candidate completed 0% of the interview questions."
         recommendation := some "Unable to determine"
         reasoning := some ("An error occurred during the final assessment: " ++ e)
         scores := zero_scores
         completion_rate := 0 }, 1)

/-! ### Answer persistence (`save_interview_answer`)

`save_interview_answer` (database_methods.py lines 137-202) runs a single
unconditional `INSERT INTO interview_answers ... RETURNING id`; the
`interview_answers` table (database_update.py lines 102-118) has no
uniqueness constraint on `question_id`.  The table is modelled as the
list of its rows (the columns the claims read), and the serial `id` as
the row count so far plus one. -/

/-- A row of `interview_answers` (modelled columns). -/
structure AnswerRow where
  question_id : ℕ
  answer_text : String
  score : ℚ
  response_time : ℕ
  is_skipped : Bool
deriving DecidableEq

/-- The `answer_data` dictionary passed to `save_interview_answer`; a
missing `skipped` key reads as `False` (line 149), modelled by the field
being `false`. -/
structure SubmitData where
  answer_text : String
  evaluation : Option EvalDict
  response_time : ℕ
  skipped : Bool
deriving DecidableEq

/-- The row built by the INSERT of lines 152-190: `score =
evaluation.get('score', 0)` with `evaluation = answer_data.get(
'evaluation', {})`. -/
def mk_answer_row (question_id : ℕ) (answer_data : SubmitData) : AnswerRow :=
  { question_id := question_id
    answer_text := answer_data.answer_text
    score := ((answer_data.evaluation.getD ⟨none⟩).score).getD 0
    response_time := answer_data.response_time
    is_skipped := answer_data.skipped }

/-- `save_interview_answer` (database_methods.py lines 137-202): appends a
new row unconditionally — no check that the question is already answered
or belongs to any session — and returns the new id. -/
def save_interview_answer (db : List AnswerRow) (question_id : ℕ)
    (answer_data : SubmitData) : List AnswerRow × Option ℕ :=
  (db ++ [mk_answer_row question_id answer_data], some (db.length + 1))

/-! ### Spec-side notions and concrete inputs used by the claims -/

/-- Spec-side notion of a scored answer (glossary of the spec: an Answer
with `is_skipped = false` and a present Evaluation); this counts them.
Not a function of the source — used to state claims about scored
answers. -/
def spec_scored_answers (results : List ResultItem) : ℕ :=
  (results.filter fun it =>
    match it.answer with
    | some a => !a.skipped && a.evaluation.isSome
    | none => false).length

/-- An ordinary answered technical item with evaluation score 8. -/
def answered_technical_8 : ResultItem :=
  { question := "q"
    qtype := "technical"
    answer := some { text := "a", evaluation := some ⟨some 8⟩, skipped := false } }

/-- An item whose question was never submitted (`answer` is `None`). -/
def unanswered_item : ResultItem :=
  { question := "q", qtype := "technical", answer := none }

/-- The stored answer produced by the skip path of the UI
(interview_ui.py lines 601-612) after the round trip through
`save_interview_answer` and `get_interview_answers`: evaluation score 0
and the skipped flag set. -/
def skip_answer_data : AnswerData :=
  { text := "[Question skipped by interviewer]"
    evaluation := some ⟨some 0⟩
    skipped := true }

/-- A skipped technical item as it reaches `generate_final_report`. -/
def skipped_technical : ResultItem :=
  { question := "q2", qtype := "technical", answer := some skip_answer_data }

/-- Interview with 13 of 20 questions answered: completion rate 0.65. -/
def results_13_of_20 : List ResultItem :=
  List.replicate 13 answered_technical_8 ++ List.replicate 7 unanswered_item

/-- Interview with exactly one scored answer. -/
def results_one_scored : List ResultItem := [answered_technical_8]

/-- Fully answered interview (2 of 2, all scores 8). -/
def results_2_of_2 : List ResultItem :=
  List.replicate 2 answered_technical_8

/-- A narrative response proposing the recommendation `Hire`. -/
def nr_hire : NarrativeResponse :=
  { overall_assessment := some "Strong performance"
    key_strengths := some ["Deep domain knowledge"]
    areas_for_improvement := some ["None noted"]
    key_observations := some ["Consistent answers"]
    interview_completion := some "Enough questions were answered"
    recommendation := some "Hire"
    reasoning := some "High scores across categories" }

/-- A narrative response proposing the recommendation `Do Not Hire`. -/
def nr_no_hire : NarrativeResponse :=
  { overall_assessment := some "Weak performance"
    key_strengths := some []
    areas_for_improvement := some ["Depth"]
    key_observations := some ["Short answers"]
    interview_completion := some "Too few questions answered"
    recommendation := some "Do Not Hire"
    reasoning := some "Low scores" }

/-- A parsed question dictionary in which the external service omitted
every category except `technical`. -/
def gen_dict_example : GenDict := [("technical", [⟨"Q1", "relevant"⟩])]

/-- A concrete `answer_data` dictionary for `save_interview_answer`. -/
def submit_example : SubmitData :=
  { answer_text := "a", evaluation := some ⟨some 8⟩, response_time := 30,
    skipped := false }

/-- A grading-service response exercising every defaulting rule at once:
out-of-range number, absent field, non-convertible field, in-range
fractional number, negative number, absent strengths and feedback. -/
def score_response_example : ScoreResponse :=
  { score := .num 15
    technical_accuracy := .absent
    clarity_of_communication := .nonNumeric
    relevance := .num (37 / 10)
    demonstrated_expertise := .num (-3)
    strengths := none
    weaknesses := some ["Terse"]
    feedback := none }

/-- Spec-side property of one numeric evaluation field: in `[0, 10]` and
an integer number of tenths (rounded to one decimal place). -/
def valid_score_field (q : ℚ) : Prop :=
  0 ≤ q ∧ q ≤ 10 ∧ ∃ k : ℤ, q = (k : ℚ) / 10

/-- Spec-side list of the categories having at least one stored score:
the categories over which the claimed weighted-average formula ranges. -/
def active_categories (results : List ResultItem) : List String :=
  categories.filter fun c => scores_by_type results c ≠ []

/-- A skipped scenario item as it reaches `generate_final_report`. -/
def skipped_scenario : ResultItem :=
  { question := "q3", qtype := "scenario", answer := some skip_answer_data }

/-- Spec-side score list of a category, following the words of the spec
and of claim C5: only scored answers count, a scored answer being one
with `is_skipped = false` and a present Evaluation (spec glossary).  To
be compared with the source-side `scores_by_type`, which never consults
the skipped flag. -/
def spec_scored_scores (results : List ResultItem) (cat : String) :
    List ℚ :=
  results.filterMap fun it =>
    match it.answer with
    | none => none
    | some a =>
        if py_lower it.qtype = cat ∧ a.skipped = false ∧ a.evaluation.isSome
        then some (item_score a) else none

/-- Spec-side `category_score[c]`: mean of score over the scored
(non-skipped, evaluated) answers of the category, 0 when there are
none. -/
def spec_category_score (results : List ResultItem) (cat : String) : ℚ :=
  let l := spec_scored_scores results cat
  if l = [] then 0 else l.sum / (l.length : ℚ)

/-- Spec-side list of categories with at least one scored (non-skipped,
evaluated) answer: the categories over which claim C5 ranges. -/
def spec_active_categories (results : List ResultItem) : List String :=
  categories.filter fun c => spec_scored_scores results c ≠ []

/-- Spec-side overall score, following the words of claim C5:
`Σ weight[c] · category_score[c] / Σ weight[c]` taken only over
categories with at least one scored answer, and 0 when there is none. -/
def spec_overall_score (results : List ResultItem) : ℚ :=
  if spec_active_categories results = [] then 0
  else
    ((spec_active_categories results).map
        (fun c => weights c * spec_category_score results c)).sum /
      ((spec_active_categories results).map weights).sum

/-- Sanity lemma documenting the exponent choice in `float_0_4`: the
computed significand is in the normal range `[2 ^ 52, 2 ^ 53)`. -/
theorem float_0_4_normal : 2 ^ 52 ≤ float_0_4.1 ∧ float_0_4.1 < 2 ^ 53 := by
  decide

/-- Sanity lemma documenting the exponent choice in `float_0_3`. -/
theorem float_0_3_normal : 2 ^ 52 ≤ float_0_3.1 ∧ float_0_3.1 < 2 ^ 53 := by
  decide

/-- Sanity lemma documenting the exponent choice in `float_0_2`. -/
theorem float_0_2_normal : 2 ^ 52 ≤ float_0_2.1 ∧ float_0_2.1 < 2 ^ 53 := by
  decide

set_option maxRecDepth 8000 in
/-- C6: for every `N ∈ [5, 40]` the quotas computed by `generate_questions`
(with binary64 arithmetic) equal `⌊0.4N⌋`, `⌊0.3N⌋`, `⌊0.2N⌋` and the
absorbing remainder; the four quotas sum to exactly `N` and each is ≥ 0. -/
theorem C6_quota_split (n : ℕ) (h5 : 5 ≤ n) (h40 : n ≤ 40) :
    technical_count n = 4 * n / 10 ∧
    scenario_count n = 3 * n / 10 ∧
    behavioral_count n = 2 * n / 10 ∧
    (technical_count n : ℤ) + scenario_count n + behavioral_count n +
      problem_solving_count n = n ∧
    0 ≤ problem_solving_count n := by
  have key : ∀ m ∈ Finset.Icc 5 40,
      technical_count m = 4 * m / 10 ∧
      scenario_count m = 3 * m / 10 ∧
      behavioral_count m = 2 * m / 10 ∧
      (technical_count m : ℤ) + scenario_count m + behavioral_count m +
        problem_solving_count m = m ∧
      0 ≤ problem_solving_count m := by decide
  exact key n (Finset.mem_Icc.mpr ⟨h5, h40⟩)

/-- Witness for C6 at `N = 20`. -/
theorem C6_quota_split_witness :
    technical_count 20 = 4 * 20 / 10 ∧
    scenario_count 20 = 3 * 20 / 10 ∧
    behavioral_count 20 = 2 * 20 / 10 ∧
    (technical_count 20 : ℤ) + scenario_count 20 + behavioral_count 20 +
      problem_solving_count 20 = 20 ∧
    0 ≤ problem_solving_count 20 :=
  C6_quota_split 20 (by norm_num) (by norm_num)


/-! ### Claim C1 -/

/-- C1 (refuting evaluation): the claim says that for an interview with
completion rate below 0.70 whose external narrative proposes `Hire`,
`generate_final_report` downgrades the recommendation to `Consider`.  The
code states the constraint only inside the prompt it sends (line 418) and
returns the parsed recommendation unchanged (lines 434-441): at 13 of 20
questions answered (completion rate 0.65) with the service proposing
`Hire`, the returned report recommends `Hire`, not `Consider`. -/
theorem C1_no_hire_gate_in_code :
    completion_rate results_13_of_20 = 13 / 20 ∧
    completion_rate results_13_of_20 < 7 / 10 ∧
    (generate_final_report (.ok nr_hire) results_13_of_20).1.recommendation =
      some "Hire" ∧
    (generate_final_report (.ok nr_hire) results_13_of_20).1.recommendation ≠
      some "Consider" := by
  have hrate : completion_rate results_13_of_20 = 13 / 20 := by
    unfold completion_rate
    rw [show answered_questions results_13_of_20 = 13 from by decide,
        show results_13_of_20.length = 20 from by decide]
    norm_num
  refine ⟨hrate, ?_, rfl, by decide⟩
  rw [hrate]
  norm_num

/-! ### Claim C2 -/

/-- C2 (counterexample): the claim says that with fewer than 2 scored
answers `generate_final_report` returns `Do Not Hire` with locally
synthesized reasoning and makes no narrative call.  On an interview with
exactly one scored answer the function still makes its single narrative
call and returns the external recommendation unchanged. -/
theorem C2_counterexample :
    spec_scored_answers results_one_scored = 1 ∧
    (generate_final_report (.ok nr_hire) results_one_scored).2 = 1 ∧
    (generate_final_report (.ok nr_hire) results_one_scored).1.recommendation =
      some "Hire" ∧
    (generate_final_report (.ok nr_hire) results_one_scored).1.recommendation ≠
      some "Do Not Hire" :=
  ⟨by decide, rfl, rfl, by decide⟩

/-- C2 (amended): `generate_final_report` applies no minimum-scored-answer
gate: on every input — regardless of how few scored answers there are — it
attempts exactly one narrative-service call (also when that call fails),
and on success it returns the recommendation and reasoning exactly as the
external service produced them. -/
theorem C2_no_minimum_scored_gate (results : List ResultItem)
    (nr : NarrativeResponse) (e : String) :
    (generate_final_report (.ok nr) results).2 = 1 ∧
    (generate_final_report (.error e) results).2 = 1 ∧
    (generate_final_report (.ok nr) results).1.recommendation =
      nr.recommendation ∧
    (generate_final_report (.ok nr) results).1.reasoning = nr.reasoning :=
  ⟨rfl, rfl, rfl, rfl⟩

/-! ### Claim C7 -/

/-- C7 (counterexample): the claim says `generate_questions` never raises
on a failed external call; the legacy `generate_questions` of
`interview_engine.py` re-raises the exception unchanged. -/
theorem C7_counterexample :
    generate_questions_old (.error "network error") =
      .error "network error" := rfl

/-- C7 (amended): on a failed external call, `generate_questions` of the
new engine returns the four-category empty dictionary and never raises,
while the legacy engine of `interview_engine.py` propagates the
failure. -/
theorem C7_failure_path (e : String) :
    generate_questions (.error e) =
      [("technical", []), ("scenario", []), ("behavioral", []),
       ("problem_solving", [])] ∧
    generate_questions_old (.error e) = .error e :=
  ⟨rfl, rfl⟩

/-! ### Claim C8 -/

/-- C8 (refuting evaluation): the claim says the failure fallback of
`generate_final_report` returns the locally computed scores and
completion rate.  The fallback first re-initializes them to zero
(lines 446-456, contradicting the comment on line 460), so on a fully
answered interview with all scores 8 and a failing narrative call it
reports completion rate 0 and all-zero scores, while the locally
computable values are 1 and 8; the placeholder text and the
`Unable to determine` recommendation are as the claim says. -/
theorem C8_fallback_zeroes_scores :
    (generate_final_report (.error "boom") results_2_of_2).1.recommendation =
      some "Unable to determine" ∧
    (generate_final_report (.error "boom") results_2_of_2).1.overall_assessment =
      some "Could not generate a comprehensive assessment due to an error." ∧
    (generate_final_report (.error "boom") results_2_of_2).1.completion_rate = 0 ∧
    (generate_final_report (.error "boom") results_2_of_2).1.scores =
      zero_scores ∧
    completion_rate results_2_of_2 = 1 ∧
    avg_score results_2_of_2 "technical" = 8 := by
  refine ⟨rfl, rfl, rfl, rfl, ?_, ?_⟩
  · unfold completion_rate
    rw [show answered_questions results_2_of_2 = 2 from by decide,
        show results_2_of_2.length = 2 from by decide]
    norm_num
  · unfold avg_score
    rw [show scores_by_type results_2_of_2 "technical" = [8, 8] from by decide,
        if_neg (by decide : ¬([8, 8] : List ℚ) = [])]
    show ((8 : ℚ) + (8 + 0)) / 2 = 8
    norm_num

/-! ### Claim C9 -/

/-- C9 (counterexample): the claim says a second submission for an
already-answered question fails with `InvalidStateError` and stores
nothing.  `save_interview_answer` checks nothing: submitting twice for
question 7 succeeds twice and stores two answer rows for that
question. -/
theorem C9_counterexample :
    (save_interview_answer [] 7 submit_example).2 = some 1 ∧
    (save_interview_answer (save_interview_answer [] 7 submit_example).1 7
        submit_example).2 = some 2 ∧
    ((save_interview_answer (save_interview_answer [] 7 submit_example).1 7
        submit_example).1.filter fun r => r.question_id = 7).length = 2 := by
  refine ⟨rfl, rfl, by decide⟩

/-- C9 (amended): `save_interview_answer` performs no already-answered or
session-membership check and raises no `InvalidStateError`: every call
returns a fresh id and appends a row, so a repeated submission for the
same question increases the number of stored answers for that question by
two instead of being rejected. -/
theorem C9_duplicate_inserts (db : List AnswerRow) (qid : ℕ)
    (a : SubmitData) :
    (save_interview_answer db qid a).2 = some (db.length + 1) ∧
    ((save_interview_answer (save_interview_answer db qid a).1 qid a).1.filter
        fun r => r.question_id = qid).length =
      (db.filter fun r => r.question_id = qid).length + 2 := by
  refine ⟨rfl, ?_⟩
  simp [save_interview_answer, mk_answer_row, List.filter_append]

/-! ### Claim C10 -/

/-- Association-list lookup distributes over append when the key is bound
on the left. -/
theorem lookup_append_of_isSome {α β : Type} [BEq α] (k : α)
    (l1 l2 : List (α × β)) (h : (List.lookup k l1).isSome = true) :
    List.lookup k (l1 ++ l2) = List.lookup k l1 := by
  induction l1 with
  | nil => simp [List.lookup] at h
  | cons p t ih =>
      cases hk : k == p.1 with
      | true => simp [List.lookup, hk]
      | false =>
          simp [List.lookup, hk] at h ⊢
          exact ih h

/-- Association-list lookup falls through append when the key is unbound
on the left. -/
theorem lookup_append_of_none {α β : Type} [BEq α] (k : α)
    (l1 l2 : List (α × β)) (h : List.lookup k l1 = none) :
    List.lookup k (l1 ++ l2) = List.lookup k l2 := by
  induction l1 with
  | nil => simp
  | cons p t ih =>
      cases hk : k == p.1 with
      | true => simp [List.lookup, hk] at h
      | false =>
          simp [List.lookup, hk] at h ⊢
          exact ih h

/-- `ensure_step` preserves a bound key. -/
theorem ensure_step_isSome (acc : GenDict) (c c' : String)
    (h : (List.lookup c' acc).isSome = true) :
    (List.lookup c' (ensure_step acc c)).isSome = true := by
  unfold ensure_step
  split
  · exact h
  · rw [lookup_append_of_isSome c' acc _ h]
    exact h

/-- `ensure_step` preserves a bound value. -/
theorem ensure_step_value (acc : GenDict) (c c' : String)
    (v : List GQuestion) (h : List.lookup c' acc = some v) :
    List.lookup c' (ensure_step acc c) = some v := by
  unfold ensure_step
  split
  · exact h
  · rw [lookup_append_of_isSome c' acc _ (by rw [h]; rfl)]
    exact h

/-- After `ensure_step acc c` the key `c` is bound. -/
theorem ensure_step_self (acc : GenDict) (c : String) :
    (List.lookup c (ensure_step acc c)).isSome = true := by
  unfold ensure_step
  split
  · assumption
  · next h =>
      rw [lookup_append_of_none c acc _ (Option.not_isSome_iff_eq_none.mp
        (by simpa using h))]
      simp [List.lookup]

/-- `ensure_step` binds a missing key to the empty list. -/
theorem ensure_step_self_value (acc : GenDict) (c : String)
    (h : List.lookup c acc = none) :
    List.lookup c (ensure_step acc c) = some [] := by
  unfold ensure_step
  rw [if_neg (by simp [h])]
  rw [lookup_append_of_none c acc _ h]
  simp [List.lookup]

/-- `ensure_step` for a different category leaves a missing key missing. -/
theorem ensure_step_none_ne (acc : GenDict) (c c' : String) (hne : c' ≠ c)
    (h : List.lookup c' acc = none) :
    List.lookup c' (ensure_step acc c) = none := by
  unfold ensure_step
  split
  · exact h
  · rw [lookup_append_of_none c' acc _ h]
    have hb : (c' == c) = false := beq_eq_false_iff_ne.mpr hne
    simp [List.lookup, hb]

/-- Unfolding of the four-step category loop. -/
theorem ensure_categories_unfold (d : GenDict) :
    ensure_categories d =
      ensure_step (ensure_step (ensure_step (ensure_step d "technical")
        "scenario") "behavioral") "problem_solving" := rfl

/-- C10: every value returned by `generate_questions` — on the success
path as well as the failure path — binds all four category keys; in
particular a category omitted by the external service on success is bound
to the empty list in the result. -/
theorem C10_all_categories_present (ext : Except String GenDict)
    (c : String) (hc : c ∈ categories) :
    (List.lookup c (generate_questions ext)).isSome = true ∧
    ∀ r, ext = .ok r → List.lookup c r = none →
      List.lookup c (generate_questions ext) = some [] := by
  simp only [categories, List.mem_cons, List.not_mem_nil, or_false] at hc
  cases ext with
  | error e =>
      constructor
      · have hlit : generate_questions (Except.error e) =
            [("technical", []), ("scenario", []), ("behavioral", []),
             ("problem_solving", [])] := rfl
        rcases hc with rfl | rfl | rfl | rfl <;> rw [hlit] <;> decide
      · intro r hr
        cases hr
  | ok r =>
      constructor
      · show (List.lookup c (ensure_categories r)).isSome = true
        rw [ensure_categories_unfold]
        rcases hc with rfl | rfl | rfl | rfl
        · exact ensure_step_isSome _ _ _ (ensure_step_isSome _ _ _
            (ensure_step_isSome _ _ _ (ensure_step_self _ _)))
        · exact ensure_step_isSome _ _ _ (ensure_step_isSome _ _ _
            (ensure_step_self _ _))
        · exact ensure_step_isSome _ _ _ (ensure_step_self _ _)
        · exact ensure_step_self _ _
      · intro r' hr' hnone
        cases hr'
        show List.lookup c (ensure_categories r) = some []
        rw [ensure_categories_unfold]
        rcases hc with rfl | rfl | rfl | rfl
        · exact ensure_step_value _ _ _ _ (ensure_step_value _ _ _ _
            (ensure_step_value _ _ _ _ (ensure_step_self_value _ _ hnone)))
        · exact ensure_step_value _ _ _ _ (ensure_step_value _ _ _ _
            (ensure_step_self_value _ _
              (ensure_step_none_ne _ _ _ (by decide) hnone)))
        · exact ensure_step_value _ _ _ _ (ensure_step_self_value _ _
            (ensure_step_none_ne _ _ _ (by decide)
              (ensure_step_none_ne _ _ _ (by decide) hnone)))
        · exact ensure_step_self_value _ _
            (ensure_step_none_ne _ _ _ (by decide)
              (ensure_step_none_ne _ _ _ (by decide)
                (ensure_step_none_ne _ _ _ (by decide) hnone)))

/-- Witness for C10: with the external service returning only the
`technical` category, the omitted `scenario` category is present and
empty in the result. -/
theorem C10_witness :
    (List.lookup "scenario" (generate_questions (.ok gen_dict_example))).isSome
      = true ∧
    List.lookup "scenario" (generate_questions (.ok gen_dict_example)) =
      some [] := by
  have h := C10_all_categories_present (.ok gen_dict_example) "scenario"
    (by decide)
  exact ⟨h.1, h.2 gen_dict_example rfl (by decide)⟩

/-! ### Claim C3 -/

/-- Round-half-to-even respects integer lower bounds. -/
theorem rheRound_ge (A : ℤ) (q : ℚ) (h : (A : ℚ) ≤ q) : A ≤ rheRound q := by
  have hfl : A ≤ ⌊q⌋ := Int.le_floor.mpr h
  unfold rheRound
  split
  · exact hfl
  · split
    · omega
    · split
      · exact hfl
      · omega

/-- Round-half-to-even respects integer upper bounds. -/
theorem rheRound_le (B : ℤ) (q : ℚ) (h : q ≤ (B : ℚ)) : rheRound q ≤ B := by
  have hfl : ⌊q⌋ ≤ B := by
    have h2 := Int.floor_le_floor h
    simpa using h2
  unfold rheRound
  split
  · exact hfl
  · next h1 =>
      have h1' : (1 : ℚ) / 2 ≤ q - ⌊q⌋ := le_of_not_lt h1
      have hlt : ⌊q⌋ < B := by
        rcases lt_or_eq_of_le hfl with hlt | heq
        · exact hlt
        · exfalso
          have hq : q - (⌊q⌋ : ℚ) ≤ 0 := by
            rw [heq]
            have hBq : q ≤ (B : ℚ) := h
            linarith
          linarith
      split
      · omega
      · split
        · exact hfl
        · omega

/-- Round-half-to-even of an integer is that integer. -/
theorem rheRound_intCast (z : ℤ) : rheRound (z : ℚ) = z := by
  unfold rheRound
  rw [Int.floor_intCast]
  rw [if_pos]
  norm_num

/-- `round(x, 1)` stays inside `[0, 10]` on `[0, 10]`. -/
theorem round1_bounds (q : ℚ) (h0 : 0 ≤ q) (h10 : q ≤ 10) :
    0 ≤ round1 q ∧ round1 q ≤ 10 := by
  have hge : (0 : ℤ) ≤ rheRound (q * 10) := by
    apply rheRound_ge
    push_cast
    linarith
  have hle : rheRound (q * 10) ≤ (100 : ℤ) := by
    apply rheRound_le
    push_cast
    linarith
  unfold round1
  constructor
  · exact div_nonneg (by exact_mod_cast hge) (by norm_num)
  · rw [div_le_iff₀ (by norm_num : (0 : ℚ) < 10)]
    have hc : ((rheRound (q * 10) : ℚ)) ≤ 100 := by exact_mod_cast hle
    linarith

/-- The clamp of line 229 lands in `[0, 10]`. -/
theorem clamp_score_bounds (x : ℚ) : 0 ≤ clamp_score x ∧ clamp_score x ≤ 10 := by
  unfold clamp_score
  refine ⟨le_max_left 0 _, max_le (by norm_num) (min_le_left _ _)⟩

/-- Clamping the absent-field default `5` gives `5`. -/
theorem clamp_score_five : clamp_score 5 = 5 := by
  norm_num [clamp_score, min_def, max_def]

/-- Rounding `5` to one decimal gives `5`. -/
theorem round1_five : round1 (5 : ℚ) = 5 := by
  unfold round1
  rw [show (5 : ℚ) * 10 = ((50 : ℤ) : ℚ) from by norm_num, rheRound_intCast]
  norm_num

/-- Every normalized numeric field is valid, and an absent or
non-convertible field normalizes to the neutral `5`. -/
theorem normalize_score_props (v : ExtNum) :
    valid_score_field (normalize_score v) ∧
    ((v = ExtNum.absent ∨ v = ExtNum.nonNumeric) → normalize_score v = 5) := by
  cases v with
  | absent =>
      have h5 : normalize_score ExtNum.absent = 5 := by
        show round1 (clamp_score 5) = 5
        rw [clamp_score_five, round1_five]
      rw [h5]
      exact ⟨⟨by norm_num, by norm_num, 50, by norm_num⟩, fun _ => rfl⟩
  | nonNumeric =>
      have h5 : normalize_score ExtNum.nonNumeric = 5 := rfl
      rw [h5]
      exact ⟨⟨by norm_num, by norm_num, 50, by norm_num⟩, fun _ => rfl⟩
  | num q =>
      constructor
      · obtain ⟨hc0, hc10⟩ := clamp_score_bounds q
        obtain ⟨h0, h10⟩ := round1_bounds _ hc0 hc10
        exact ⟨h0, h10, rheRound (clamp_score q * 10), rfl⟩
      · intro h
        rcases h with h | h <;> simp at h

/-- C3: whatever the external grading service produces — including a
failed call — `evaluate_answer` returns an evaluation whose five numeric
fields are in `[0, 10]` and are an integer number of tenths, with an
absent or non-convertible field defaulting to `5.0`, absent
strengths/weaknesses defaulting to empty lists and absent feedback to the
placeholder string. -/
theorem C3_evaluate_answer_total (ext : Except String ScoreResponse) :
    valid_score_field (evaluate_answer ext).score ∧
    valid_score_field (evaluate_answer ext).technical_accuracy ∧
    valid_score_field (evaluate_answer ext).clarity_of_communication ∧
    valid_score_field (evaluate_answer ext).relevance ∧
    valid_score_field (evaluate_answer ext).demonstrated_expertise ∧
    ∀ r, ext = .ok r →
      (((r.score = ExtNum.absent ∨ r.score = ExtNum.nonNumeric) →
          (evaluate_answer ext).score = 5) ∧
       ((r.technical_accuracy = ExtNum.absent ∨
           r.technical_accuracy = ExtNum.nonNumeric) →
          (evaluate_answer ext).technical_accuracy = 5) ∧
       ((r.clarity_of_communication = ExtNum.absent ∨
           r.clarity_of_communication = ExtNum.nonNumeric) →
          (evaluate_answer ext).clarity_of_communication = 5) ∧
       ((r.relevance = ExtNum.absent ∨ r.relevance = ExtNum.nonNumeric) →
          (evaluate_answer ext).relevance = 5) ∧
       ((r.demonstrated_expertise = ExtNum.absent ∨
           r.demonstrated_expertise = ExtNum.nonNumeric) →
          (evaluate_answer ext).demonstrated_expertise = 5) ∧
       (r.strengths = none → (evaluate_answer ext).strengths = []) ∧
       (r.weaknesses = none → (evaluate_answer ext).weaknesses = []) ∧
       (r.feedback = none → (evaluate_answer ext).feedback =
          "No detailed feedback provided.")) := by
  cases ext with
  | error e =>
      have hv : valid_score_field 5 := ⟨by norm_num, by norm_num, 50, by norm_num⟩
      refine ⟨hv, hv, hv, hv, hv, ?_⟩
      intro r hr
      cases hr
  | ok r =>
      refine ⟨(normalize_score_props r.score).1,
        (normalize_score_props r.technical_accuracy).1,
        (normalize_score_props r.clarity_of_communication).1,
        (normalize_score_props r.relevance).1,
        (normalize_score_props r.demonstrated_expertise).1, ?_⟩
      intro r' hr'
      cases hr'
      refine ⟨(normalize_score_props r.score).2,
        (normalize_score_props r.technical_accuracy).2,
        (normalize_score_props r.clarity_of_communication).2,
        (normalize_score_props r.relevance).2,
        (normalize_score_props r.demonstrated_expertise).2, ?_, ?_, ?_⟩
      · intro h
        show r.strengths.getD [] = []
        rw [h]
        rfl
      · intro h
        show r.weaknesses.getD [] = []
        rw [h]
        rfl
      · intro h
        show r.feedback.getD "No detailed feedback provided." =
          "No detailed feedback provided."
        rw [h]
        rfl

/-- Witness for C3 on a response with an out-of-range score, an absent
and a non-convertible field, and absent strengths and feedback. -/
theorem C3_witness :
    valid_score_field
      (evaluate_answer (.ok score_response_example)).score ∧
    (evaluate_answer (.ok score_response_example)).technical_accuracy = 5 ∧
    (evaluate_answer (.ok score_response_example)).clarity_of_communication
      = 5 ∧
    (evaluate_answer (.ok score_response_example)).strengths = [] ∧
    (evaluate_answer (.ok score_response_example)).feedback =
      "No detailed feedback provided." := by
  have h := C3_evaluate_answer_total (.ok score_response_example)
  have h2 := h.2.2.2.2.2 score_response_example rfl
  exact ⟨h.1, h2.2.1 (Or.inl rfl), h2.2.2.1 (Or.inr rfl),
    h2.2.2.2.2.2.1 rfl, h2.2.2.2.2.2.2.2 rfl⟩

/-! ### Claim C4 -/

/-- C4 (counterexample): the claim says a skipped answer never
contributes to the per-category mean.  A technical category holding one
ordinary answer scored 8 has mean 8; appending a skipped answer (stored
with score 0) drags the computed mean down to 4. -/
theorem C4_counterexample :
    avg_score [answered_technical_8, skipped_technical] "technical" = 4 ∧
    avg_score [answered_technical_8] "technical" = 8 ∧
    skip_answer_data.skipped = true := by
  refine ⟨?_, ?_, rfl⟩
  · unfold avg_score
    rw [show scores_by_type [answered_technical_8, skipped_technical]
          "technical" = [8, 0] from by decide,
        if_neg (by decide : ¬([8, 0] : List ℚ) = [])]
    show ((8 : ℚ) + (0 + 0)) / 2 = 4
    norm_num
  · unfold avg_score
    rw [show scores_by_type [answered_technical_8] "technical" = [8]
          from by decide,
        if_neg (by decide : ¬([8] : List ℚ) = [])]
    show ((8 : ℚ) + 0) / 1 = 8
    norm_num

/-- C4 (amended): a skipped answer is stored with evaluation score 0 and
is included in the per-category score like any ordinary answer: appending
a skipped technical answer appends a 0 to the technical score list, and
the category mean becomes `sum / (n + 1)` — so the mean is affected by
the skip whenever it was nonzero. -/
theorem C4_skip_scores_zero (results : List ResultItem) (q : String) :
    scores_by_type (results ++ [⟨q, "technical", some skip_answer_data⟩])
        "technical" = scores_by_type results "technical" ++ [0] ∧
    avg_score (results ++ [⟨q, "technical", some skip_answer_data⟩])
        "technical" =
      (scores_by_type results "technical").sum /
        (((scores_by_type results "technical").length : ℚ) + 1) := by
  have happ : scores_by_type
      (results ++ [⟨q, "technical", some skip_answer_data⟩]) "technical" =
      scores_by_type results "technical" ++ [0] := by
    unfold scores_by_type
    rw [List.filterMap_append]
    congr 1
  refine ⟨happ, ?_⟩
  unfold avg_score
  rw [happ, if_neg (by simp :
    ¬(scores_by_type results "technical" ++ [0] = []))]
  rw [List.sum_append, List.length_append]
  simp


/-! ### Claim C5 -/

/-- C5 (amended): the four weights are 0.4, 0.3, 0.15, 0.15, and
`overall_score` is the weighted mean of the category averages taken only
over categories with at least one stored answer — skipped answers
included, their stored score 0 counting like any other — with such
categories excluded from numerator and denominator alike, and 0 when no
category has any stored answer.  (The claim's restriction to scored,
i.e. non-skipped evaluated, answers fails on the code: see the
counterexample.) -/
theorem C5_overall_weighted_mean (results : List ResultItem) :
    weights "technical" = 4 / 10 ∧
    weights "scenario" = 3 / 10 ∧
    weights "behavioral" = 3 / 20 ∧
    weights "problem_solving" = 3 / 20 ∧
    overall_score results =
      (if active_categories results = [] then 0
       else
        ((active_categories results).map
            (fun c => weights c * avg_score results c)).sum /
          ((active_categories results).map weights).sum) := by
  refine ⟨rfl, rfl, rfl, rfl, ?_⟩
  unfold overall_score overall_parts active_categories categories
  by_cases h1 : scores_by_type results "technical" = [] <;>
    by_cases h2 : scores_by_type results "scenario" = [] <;>
      by_cases h3 : scores_by_type results "behavioral" = [] <;>
        by_cases h4 : scores_by_type results "problem_solving" = [] <;>
          simp [h1, h2, h3, h4, weights] <;>
            norm_num <;>
              ring_nf

/-- C5 (counterexample): the claim restricts the weighted mean to
categories with at least one scored (non-skipped, evaluated) answer.  On
an interview with one technical answer scored 8 and one skipped scenario
question, the claimed formula ranges over `technical` alone and yields 8,
but the code also counts the skip-only `scenario` category (stored score
0), computing (0.4·8 + 0.3·0) / (0.4 + 0.3) = 32/7 ≈ 4.57: the skip-only
category dilutes the denominator. -/
theorem C5_counterexample :
    spec_scored_answers [answered_technical_8, skipped_scenario] = 1 ∧
    overall_score [answered_technical_8, skipped_scenario] = 32 / 7 ∧
    spec_overall_score [answered_technical_8, skipped_scenario] = 8 ∧
    overall_score [answered_technical_8, skipped_scenario] ≠
      spec_overall_score [answered_technical_8, skipped_scenario] := by
  have h1 : scores_by_type [answered_technical_8, skipped_scenario]
      "technical" = [8] := by decide
  have h2 : scores_by_type [answered_technical_8, skipped_scenario]
      "scenario" = [0] := by decide
  have h3 : scores_by_type [answered_technical_8, skipped_scenario]
      "behavioral" = [] := by decide
  have h4 : scores_by_type [answered_technical_8, skipped_scenario]
      "problem_solving" = [] := by decide
  have havg1 : avg_score [answered_technical_8, skipped_scenario]
      "technical" = 8 := by
    unfold avg_score
    rw [h1, if_neg (by decide : ¬([8] : List ℚ) = [])]
    show ((8 : ℚ) + 0) / 1 = 8
    norm_num
  have havg2 : avg_score [answered_technical_8, skipped_scenario]
      "scenario" = 0 := by
    unfold avg_score
    rw [h2, if_neg (by decide : ¬([0] : List ℚ) = [])]
    show ((0 : ℚ) + 0) / 1 = 0
    norm_num
  have hcode : overall_score [answered_technical_8, skipped_scenario] =
      32 / 7 := by
    unfold overall_score overall_parts categories
    simp [h1, h2, h3, h4, havg1, havg2, weights]
    norm_num
  have hs1 : spec_scored_scores [answered_technical_8, skipped_scenario]
      "technical" = [8] := by decide
  have hs2 : spec_scored_scores [answered_technical_8, skipped_scenario]
      "scenario" = [] := by decide
  have hs3 : spec_scored_scores [answered_technical_8, skipped_scenario]
      "behavioral" = [] := by decide
  have hs4 : spec_scored_scores [answered_technical_8, skipped_scenario]
      "problem_solving" = [] := by decide
  have hspec : spec_overall_score [answered_technical_8, skipped_scenario]
      = 8 := by
    unfold spec_overall_score spec_active_categories spec_category_score
      categories
    simp [hs1, hs2, hs3, hs4, weights]
  refine ⟨by decide, hcode, hspec, ?_⟩
  rw [hcode, hspec]
  norm_num
